import Mathlib

/-!
Verification of the bioreactor temperature-control program.

Shallow embedding of the reference implementation `Projekt9.py`
(class `Bioreaktor` and class `PID`), together with the pieces of the
`Testprojekt.py` variant that the claims cite (its `PID.__init__`
validation and its `_update_fluid_properties`).

Modelling conventions:
- Python floats are modelled as exact rationals (`ℚ`).
- The external CoolProp lookup `PropsSI` is an opaque collaborator; it is
  modelled as a parameter `props : ℚ → Option Stoffwerte`, where `none`
  means the lookup raised an exception at that temperature.
- Python float exponentiation `x ** y` with a non-integer exponent has no
  exact rational value; it is modelled as a parameter
  `qpow : ℚ → ℚ → ℚ` applied to the exact base and exponent appearing in
  the source.  Integer exponents (`** 2`) are modelled exactly with `^`.
- A method that mutates `self` and returns a value is modelled as a
  function from the old state to the new state paired with the returned
  value; a method that can raise returns an `Option`.
-/

/-- Semantics of `numpy.clip(x, lo, hi)`: `min (max x lo) hi`. -/
def npClip (x lo hi : ℚ) : ℚ := min (max x lo) hi

/-- State of the `PID` class of `Projekt9.py` (the `Testprojekt.py` variant
has the identical fields): the gains `kp`, `ki`, `kd`, the time step `dt`,
the output bounds, the internal state variables `fehler_vor` (previous
error), `integral` (accumulated integral) and `output_vor` (previous
output), and the anti-windup bound `integral_max` fixed at construction. -/
structure PIDState where
  kp : ℚ
  ki : ℚ
  kd : ℚ
  dt : ℚ
  output_min : ℚ
  output_max : ℚ
  fehler_vor : ℚ
  integral : ℚ
  output_vor : ℚ
  integral_max : ℚ
  deriving DecidableEq

/-- Constructor `PID.__init__` of `Projekt9.py` (lines 208-234): stores the
parameters, zeroes the internal state and computes
`integral_max = abs(output_max - output_min) / max(ki, 1e-6)`.
It performs no validation of any parameter. -/
def PID.init (kp ki kd dt output_min output_max : ℚ) : PIDState :=
  { kp := kp
    ki := ki
    kd := kd
    dt := dt
    output_min := output_min
    output_max := output_max
    fehler_vor := 0
    integral := 0
    output_vor := 0
    integral_max := |output_max - output_min| / max ki 0.000001 }

/-- Constructor `PID.__init__` of `Testprojekt.py` (lines 181-198): raises
`ValueError` when `dt <= 0` (modelled as `none`), otherwise builds the same
state as the reference constructor. -/
def PID.initTestprojekt (kp ki kd dt output_min output_max : ℚ) :
    Option PIDState :=
  if dt ≤ 0 then none
  else some (PID.init kp ki kd dt output_min output_max)

/-- Method `PID.run` of `Projekt9.py` (lines 236-275); the body of
`Testprojekt.py` `PID.run` (lines 200-237) is line-for-line the same
computation.  Returns the new controller state and the emitted output. -/
def PID.run (st : PIDState) (sollwert istwert : ℚ) : PIDState × ℚ :=
  let fehler := sollwert - istwert
  let p_anteil := st.kp * fehler
  let integral1 := st.integral + fehler * st.dt
  let integral2 := npClip integral1 (-st.integral_max) st.integral_max
  let i_anteil := st.ki * integral2
  let d_anteil := st.kd * (fehler - st.fehler_vor) / st.dt
  let stellgroesse := p_anteil + i_anteil + d_anteil
  if stellgroesse > st.output_max then
    ({ st with fehler_vor := fehler
               output_vor := st.output_max
               integral := integral2 - (stellgroesse - st.output_max) / max st.ki 0.000001 },
     st.output_max)
  else if stellgroesse < st.output_min then
    ({ st with fehler_vor := fehler
               output_vor := st.output_min
               integral := integral2 + (st.output_min - stellgroesse) / max st.ki 0.000001 },
     st.output_min)
  else
    ({ st with fehler_vor := fehler
               output_vor := stellgroesse
               integral := integral2 },
     stellgroesse)

/-- Modelled from the words of claim C3: the integral accumulator is first
updated by `error * dt` and clamped to plus or minus `integralMax`, where
`integralMax = abs(outputMax - outputMin) / max(ki, eps)`; then, if the
unsaturated sum `P + I + D` exceeds `outputMax`, the emitted output is
`outputMax` and the integral is reduced by `(raw - outputMax) / max(ki, eps)`,
symmetrically increased by `(outputMin - raw) / max(ki, eps)` when
`raw < outputMin`; otherwise `raw` is emitted unchanged. -/
def PID.runSpec (st : PIDState) (sollwert istwert : ℚ) : PIDState × ℚ :=
  let error := sollwert - istwert
  let integralMax := |st.output_max - st.output_min| / max st.ki 0.000001
  let integralAcc := npClip (st.integral + error * st.dt) (-integralMax) integralMax
  let P := st.kp * error
  let I := st.ki * integralAcc
  let D := st.kd * (error - st.fehler_vor) / st.dt
  let raw := P + I + D
  if raw > st.output_max then
    ({ st with fehler_vor := error
               output_vor := st.output_max
               integral := integralAcc - (raw - st.output_max) / max st.ki 0.000001 },
     st.output_max)
  else if raw < st.output_min then
    ({ st with fehler_vor := error
               output_vor := st.output_min
               integral := integralAcc + (st.output_min - raw) / max st.ki 0.000001 },
     st.output_min)
  else
    ({ st with fehler_vor := error
               output_vor := raw
               integral := integralAcc },
     raw)

/-- Concrete controller used by the witnesses: the default gains of the
application (`kp = 50`, `ki = 1`, `kd = 5`, `dt = 1`) with the reference
output bounds `[-1000, 2000]`. -/
def pidW : PIDState := PID.init 50 1 5 1 (-1000) 2000

/-- C1: for every controller state (any gains, any bounds with
`output_min ≤ output_max`, any accumulated integral and previous error, any
positive time step) and all setpoint and measurement inputs, the value
returned by `PID.run` lies within `[output_min, output_max]`. -/
theorem PID_run_output_bounded (st : PIDState) (sollwert istwert : ℚ)
    (hdt : 0 < st.dt) (hbounds : st.output_min ≤ st.output_max) :
    st.output_min ≤ (PID.run st sollwert istwert).2 ∧
      (PID.run st sollwert istwert).2 ≤ st.output_max := by
  unfold PID.run
  dsimp only
  split_ifs with h1 h2
  · exact ⟨hbounds, le_refl _⟩
  · exact ⟨le_refl _, hbounds⟩
  · exact ⟨le_of_not_lt h2, le_of_not_lt h1⟩

/-- Witness for C1 at a concrete controller and concrete inputs. -/
theorem PID_run_output_bounded_witness :
    0 < pidW.dt ∧ pidW.output_min ≤ pidW.output_max ∧
      pidW.output_min ≤ (PID.run pidW 37 20).2 ∧
      (PID.run pidW 37 20).2 ≤ pidW.output_max :=
  ⟨by decide, by decide,
    (PID_run_output_bounded pidW 37 20 (by decide) (by decide)).1,
    (PID_run_output_bounded pidW 37 20 (by decide) (by decide)).2⟩

/-- C3: on any controller state whose stored `integral_max` has the value
the constructor gives it, `PID.run` performs exactly the computation the
claim describes (integral update, pre-emptive clamp to plus or minus
`integralMax`, saturation with back-calculation anti-windup). -/
theorem PID_run_matches_spec (st : PIDState) (sollwert istwert : ℚ)
    (hinit : st.integral_max = |st.output_max - st.output_min| / max st.ki 0.000001) :
    PID.run st sollwert istwert = PID.runSpec st sollwert istwert := by
  unfold PID.run PID.runSpec
  rw [hinit]

/-- Witness for C3: a freshly constructed controller satisfies the
`integral_max` hypothesis, and its first compute step matches the
specification computation. -/
theorem PID_run_matches_spec_witness :
    pidW.integral_max = |pidW.output_max - pidW.output_min| / max pidW.ki 0.000001 ∧
      PID.run pidW 37 20 = PID.runSpec pidW 37 20 :=
  ⟨rfl, PID_run_matches_spec pidW 37 20 rfl⟩

/-- Counterexample to C8: the reference constructor `PID.__init__` of
`Projekt9.py` performs no time-step validation.  Constructing with the
non-positive time step `dt = -1` succeeds and yields a fully initialised
controller object instead of raising a configuration error. -/
theorem PID_init_accepts_nonpositive_dt :
    (PID.init 50 1 5 (-1) (-1000) 2000).dt = -1 ∧
      (PID.init 50 1 5 (-1) (-1000) 2000).integral = 0 ∧
      (PID.init 50 1 5 (-1) (-1000) 2000).kp = 50 := by
  decide

/-- C8 as amended: only the `Testprojekt.py` variant validates the time
step; its constructor produces a controller exactly when `0 < dt`, while
the reference constructor of `Projekt9.py` accepts any `dt` unchecked and
always produces a controller. -/
theorem PID_dt_validation_variants (kp ki kd dt output_min output_max : ℚ) :
    ((∃ s, PID.initTestprojekt kp ki kd dt output_min output_max = some s) ↔ 0 < dt) ∧
      (PID.init kp ki kd dt output_min output_max).dt = dt := by
  constructor
  · unfold PID.initTestprojekt
    split_ifs with h
    · constructor
      · rintro ⟨s, hs⟩
        exact hs.elim
      · intro hpos
        exact absurd h (not_le.mpr hpos)
    · constructor
      · intro _
        exact not_le.mp h
      · intro _
        exact ⟨_, rfl⟩
  · rfl

/-- Witness for C8 (amended): a concrete valid construction in the
Testprojekt variant, obtained through the amended theorem. -/
theorem PID_dt_validation_variants_witness :
    (∃ s, PID.initTestprojekt 50 1 5 1 (-1000) 2000 = some s) ∧
      (PID.init 50 1 5 1 (-1000) 2000).dt = 1 :=
  ⟨(PID_dt_validation_variants 50 1 5 1 (-1000) 2000).1.mpr (by norm_num),
    (PID_dt_validation_variants 50 1 5 1 (-1000) 2000).2⟩

/-- Thermophysical properties of the medium (water) as produced by the
external CoolProp lookup `PropsSI`: specific heat capacity `spez_c`,
density `dichte`, thermal conductivity `k`, dynamic viscosity `mu`. -/
structure Stoffwerte where
  spez_c : ℚ
  dichte : ℚ
  k : ℚ
  mu : ℚ
  deriving DecidableEq

/-- State of the `Bioreaktor` class of `Projekt9.py`: operating state,
geometry data (as stored by `geometrie_daten`), current fluid properties,
heat-transfer coefficients, wall conductivity and the actuator limits.
Only the fields the simulated methods read or write are modelled. -/
structure Bioreaktor where
  t_umgebung : ℚ
  t_ist : ℚ
  drehz : ℚ
  reaktor_vol : ℚ
  wand_stk : ℚ
  flaeche_i : ℚ
  flaeche_a : ℚ
  ruehrer_d : ℚ
  spez_c : ℚ
  dichte : ℚ
  k : ℚ
  mu : ℚ
  h_int : ℚ
  h_ext : ℚ
  lambda_wand : ℚ
  max_leistung : ℚ
  min_leistung : ℚ
  deriving DecidableEq

/-- Stores a property record into the four fluid-state fields of the
reactor, as the assignments in `update_stoffwerte` do. -/
def Bioreaktor.setStoffwerte (st : Bioreaktor) (w : Stoffwerte) : Bioreaktor :=
  { st with spez_c := w.spez_c, dichte := w.dichte, k := w.k, mu := w.mu }

/-- Fallback property values of `Projekt9.py` `update_stoffwerte` (water at
20 degrees C): `spez_c = 4185.0`, `dichte = 998.0`, `k = 0.599`,
`mu = 0.001002`. -/
def Bioreaktor.fallback : Stoffwerte :=
  { spez_c := 4185.0, dichte := 998.0, k := 0.599, mu := 0.001002 }

/-- Method `update_stoffwerte` of `Projekt9.py` (lines 79-97): for
`0 < t < 100` the CoolProp lookup is consulted (a failure of the lookup is
not caught there, so it propagates: result `none`); for every other
temperature the fixed fallback values are stored. -/
def Bioreaktor.update_stoffwerte (props : ℚ → Option Stoffwerte)
    (st : Bioreaktor) (t : ℚ) : Option Bioreaktor :=
  if 0 < t ∧ t < 100 then (props t).map st.setStoffwerte
  else some (st.setStoffwerte Bioreaktor.fallback)

/-- Method `_update_fluid_properties` of `Testprojekt.py` (lines 58-68):
the try/except around the lookup is modelled by matching on the `Option`;
on failure the fallback constants for water at room temperature
(`spez_c = 4186`, `dichte = 1000`) are stored.  Only these two fields are
refreshed there. -/
def Bioreaktor.update_fluid_properties_tp (props : ℚ → Option Stoffwerte)
    (st : Bioreaktor) (t : ℚ) : Bioreaktor :=
  match props t with
  | some w => { st with spez_c := w.spez_c, dichte := w.dichte }
  | none => { st with spez_c := 4186, dichte := 1000 }

/-- Library function `fluids.Prandtl(Cp=None, k=None, mu=None, ...)`,
which computes `Cp * mu / k` from its named parameters.  The source calls
it positionally as `Prandtl(self.spez_c, self.mu, self.k)`, so the second
argument is bound to the parameter `k` and the third to `mu`. -/
def Prandtl (Cp k mu : ℚ) : ℚ := Cp * mu / k

/-- Method `berech_h_int` of `Projekt9.py` (lines 114-132): Reynolds and
Prandtl numbers from the current fluid state, Nusselt number selected by
regime (transitional band first, then fully turbulent, else the laminar
floor 3.66), and the coefficient `h = Nu * k / ruehrer_d` bounded below by
the documented minimum 150. -/
def Bioreaktor.berech_h_int (qpow : ℚ → ℚ → ℚ) (st : Bioreaktor) : ℚ :=
  let Re := st.drehz * st.ruehrer_d ^ 2 * st.dichte / st.mu
  let Pr := Prandtl st.spez_c st.mu st.k
  let Nu :=
    if 4500 < Re ∧ Re < 10000 ∧ 0.6 < Pr ∧ Pr < 160 then
      0.354 * qpow Re 0.714 * qpow Pr 0.260
    else if 10000 ≤ Re ∧ 0.6 ≤ Pr then
      0.023 * qpow Re 0.8 * qpow Pr 0.4
    else
      3.66
  max (Nu * st.k / st.ruehrer_d) 150

/-- Method `t_verlust` of `Projekt9.py` (lines 134-158): zero below the
epsilon guard on the temperature differential, otherwise the differential
divided by the three-resistance series network, with the mean of the
internal and external areas as the conduction reference area. -/
def Bioreaktor.t_verlust (st : Bioreaktor) : ℚ :=
  let delta_t := st.t_ist - st.t_umgebung
  if |delta_t| < 0.01 then 0
  else
    let a_mittel := (st.flaeche_i + st.flaeche_a) / 2
    let r_int := 1 / (st.h_int * st.flaeche_i)
    let r_cond := st.wand_stk / (st.lambda_wand * a_mittel)
    let r_ext := 1 / (st.h_ext * st.flaeche_a)
    let r_gesamt := r_int + r_cond + r_ext
    delta_t / r_gesamt

/-- Method `update_temperatur` of `Projekt9.py` (lines 160-187): clamp the
requested power, refresh the fluid properties at the current temperature
(propagating a lookup failure), recompute `h_int`, integrate the energy
balance over the time interval, and clamp the temperature to the practical
range `[4, 100]`.  Returns the new state and the returned temperature. -/
def Bioreaktor.update_temperatur (props : ℚ → Option Stoffwerte)
    (qpow : ℚ → ℚ → ℚ) (st : Bioreaktor) (leistung zeitintervall : ℚ) :
    Option (Bioreaktor × ℚ) :=
  let leistung1 := npClip leistung st.min_leistung st.max_leistung
  (Bioreaktor.update_stoffwerte props st st.t_ist).map fun st1 =>
    let st2 := { st1 with h_int := Bioreaktor.berech_h_int qpow st1 }
    let masse := st2.dichte * st2.reaktor_vol
    let energie_netto := (leistung1 - st2.t_verlust) * zeitintervall
    let temp_delta := energie_netto / (masse * st2.spez_c)
    let t1 := st2.t_ist + temp_delta
    let t2 := max t1 4
    let t3 := min t2 100
    ({ st2 with t_ist := t3 }, t3)

/-- Modelled from the words of claim C4 / spec section 4.1 `applyPower`:
clamp the requested power to the actuator bounds, refresh fluid properties
at the pre-step temperature, recompute the internal heat-transfer
coefficient from the refreshed properties, compute the heat loss, then
take the explicit forward-Euler step
`deltaT = (power - heatLoss) * dt / (mass * cp)` with
`mass = density * volume`, all coefficients evaluated at the pre-step
state, and clamp the resulting temperature to the practical range. -/
def applyPowerSpec (props : ℚ → Option Stoffwerte) (qpow : ℚ → ℚ → ℚ)
    (st : Bioreaktor) (power dt : ℚ) : Option (Bioreaktor × ℚ) :=
  let bounded := npClip power st.min_leistung st.max_leistung
  (Bioreaktor.update_stoffwerte props st st.t_ist).map fun refreshed =>
    let withCoeff := { refreshed with h_int := Bioreaktor.berech_h_int qpow refreshed }
    let heatLoss := Bioreaktor.t_verlust withCoeff
    let mass := withCoeff.dichte * withCoeff.reaktor_vol
    let deltaT := (bounded - heatLoss) * dt / (mass * withCoeff.spez_c)
    let newTemp := min (max (withCoeff.t_ist + deltaT) 4) 100
    ({ withCoeff with t_ist := newTemp }, newTemp)

/-- Modelled from the words of claim C6: the Nusselt number is selected by
regime, in order: the transitional stirred-vessel correlation when
`4500 < Re < 10000` and `0.6 < Pr < 160`, the Dittus-Boelter turbulent
correlation when `Re >= 10000` and `Pr >= 0.6`, and the laminar floor
constant for all other combinations. -/
def nusseltSpec (qpow : ℚ → ℚ → ℚ) (Re Pr : ℚ) : ℚ :=
  if 4500 < Re ∧ Re < 10000 ∧ 0.6 < Pr ∧ Pr < 160 then
    0.354 * qpow Re 0.714 * qpow Pr 0.260
  else if 10000 ≤ Re ∧ 0.6 ≤ Pr then
    0.023 * qpow Re 0.8 * qpow Pr 0.4
  else
    3.66

/-- Concrete water-property record returned by the concrete lookups used in
the witnesses (round values near 20 degrees C). -/
def wW : Stoffwerte := { spez_c := 4180, dichte := 1000, k := 6/10, mu := 1/1000 }

/-- Concrete property lookup that always succeeds, used by witnesses. -/
def propsW : ℚ → Option Stoffwerte := fun _ => some wW

/-- Concrete lookup that succeeds exactly on the open interval (0, 100),
the documented valid domain of the water lookup, used by witnesses. -/
def propsRange : ℚ → Option Stoffwerte :=
  fun t => if 0 < t ∧ t < 100 then some wW else none

/-- Concrete stand-in for float exponentiation, used by witnesses. -/
def qpowW : ℚ → ℚ → ℚ := fun _ _ => 1

/-- Concrete reactor state used by the witnesses: a small vessel at 20
degrees C in a 20 degree environment with the reference actuator limits. -/
def bioW : Bioreaktor :=
  { t_umgebung := 20
    t_ist := 20
    drehz := 0
    reaktor_vol := 1/100
    wand_stk := 5/1000
    flaeche_i := 1
    flaeche_a := 11/10
    ruehrer_d := 1
    spez_c := 4185
    dichte := 998
    k := 599/1000
    mu := 1002/1000000
    h_int := 150
    h_ext := 35
    lambda_wand := 50
    max_leistung := 2000
    min_leistung := -1000 }

/-- Result state of `update_temperatur propsW qpowW bioW 0 1`, used by the
C2 witness: only the fluid properties are replaced, the temperature stays
at 20. -/
def bioWafter : Bioreaktor × ℚ :=
  ({ bioW with spez_c := 4180, dichte := 1000, k := 6/10, mu := 1/1000 }, 20)

/-- C2: for every reactor state, every requested power and every positive
time step, when `update_temperatur` returns at all (the property lookup did
not raise), both the returned value and the stored internal temperature lie
in the documented practical range `[4, 100]`. -/
theorem update_temperatur_in_practical_range (props : ℚ → Option Stoffwerte)
    (qpow : ℚ → ℚ → ℚ) (st : Bioreaktor) (leistung zeitintervall : ℚ)
    (hz : 0 < zeitintervall) (p : Bioreaktor × ℚ)
    (hp : Bioreaktor.update_temperatur props qpow st leistung zeitintervall = some p) :
    4 ≤ p.2 ∧ p.2 ≤ 100 ∧ p.1.t_ist = p.2 := by
  unfold Bioreaktor.update_temperatur at hp
  rcases Option.map_eq_some'.mp hp with ⟨st1, _, hpeq⟩
  subst hpeq
  dsimp only
  refine ⟨le_min (le_max_right _ _) (by norm_num), min_le_right _ _, rfl⟩

/-- Witness for C2 at a concrete reactor state, power 0 and time step 1. -/
theorem update_temperatur_in_practical_range_witness :
    0 < (1:ℚ) ∧
      Bioreaktor.update_temperatur propsW qpowW bioW 0 1 = some bioWafter ∧
      4 ≤ bioWafter.2 ∧ bioWafter.2 ≤ 100 ∧ bioWafter.1.t_ist = bioWafter.2 := by
  have heval : Bioreaktor.update_temperatur propsW qpowW bioW 0 1 = some bioWafter := by
    norm_num [Bioreaktor.update_temperatur, Bioreaktor.update_stoffwerte,
      Bioreaktor.setStoffwerte, Bioreaktor.berech_h_int, Bioreaktor.t_verlust,
      Prandtl, npClip, propsW, qpowW, wW, bioW, bioWafter, min_def, max_def, abs]
  exact ⟨by norm_num, heval,
    update_temperatur_in_practical_range propsW qpowW bioW 0 1 (by norm_num) bioWafter heval⟩

/-- C4: `update_temperatur` performs exactly the steps of the specified
`applyPower` contract, in order: power clamp, property refresh at the
pre-step temperature, recomputation of the internal coefficient from the
refreshed properties, heat loss, explicit forward-Euler step
`deltaT = (power - heatLoss) * dt / (mass * cp)` with
`mass = density * volume`, and the final clamp. -/
theorem update_temperatur_matches_applyPowerSpec (props : ℚ → Option Stoffwerte)
    (qpow : ℚ → ℚ → ℚ) (st : Bioreaktor) (leistung zeitintervall : ℚ) :
    Bioreaktor.update_temperatur props qpow st leistung zeitintervall =
      applyPowerSpec props qpow st leistung zeitintervall := rfl

/-- C5: `t_verlust` returns exactly zero below the epsilon guard and
otherwise the temperature differential divided by the sum of the internal
film resistance, the wall conduction resistance over the mean area, and the
external film resistance. -/
theorem t_verlust_three_resistance_network (st : Bioreaktor) :
    (|st.t_ist - st.t_umgebung| < 0.01 → Bioreaktor.t_verlust st = 0) ∧
      (0.01 ≤ |st.t_ist - st.t_umgebung| →
        Bioreaktor.t_verlust st =
          (st.t_ist - st.t_umgebung) /
            (1 / (st.h_int * st.flaeche_i) +
              st.wand_stk / (st.lambda_wand * ((st.flaeche_i + st.flaeche_a) / 2)) +
              1 / (st.h_ext * st.flaeche_a))) := by
  unfold Bioreaktor.t_verlust
  dsimp only
  constructor
  · intro h
    rw [if_pos h]
  · intro h
    rw [if_neg (not_lt.mpr h)]

/-- Concrete reactor state 10 degrees above ambient, used by witnesses. -/
def bioCool : Bioreaktor := { bioW with t_ist := 30 }

/-- Witness for C5: at a concrete state 10 degrees above ambient the guard
is passed and the three-resistance formula is returned. -/
theorem t_verlust_three_resistance_network_witness :
    0.01 ≤ |bioCool.t_ist - bioCool.t_umgebung| ∧
      Bioreaktor.t_verlust bioCool =
        (bioCool.t_ist - bioCool.t_umgebung) /
          (1 / (bioCool.h_int * bioCool.flaeche_i) +
            bioCool.wand_stk / (bioCool.lambda_wand * ((bioCool.flaeche_i + bioCool.flaeche_a) / 2)) +
            1 / (bioCool.h_ext * bioCool.flaeche_a)) := by
  have h : (0.01:ℚ) ≤ |bioCool.t_ist - bioCool.t_umgebung| := by
    norm_num [bioCool, bioW, abs]
  exact ⟨h, (t_verlust_three_resistance_network bioCool).2 h⟩

/-- C6: the internal heat-transfer coefficient is the regime-selected
Nusselt number times `k` over the impeller diameter, bounded below by the
documented minimum 150, hence never zero or negative. -/
theorem berech_h_int_regime_table (qpow : ℚ → ℚ → ℚ) (st : Bioreaktor) :
    Bioreaktor.berech_h_int qpow st =
      max (nusseltSpec qpow (st.drehz * st.ruehrer_d ^ 2 * st.dichte / st.mu)
            (Prandtl st.spez_c st.mu st.k) * st.k / st.ruehrer_d) 150 ∧
      150 ≤ Bioreaktor.berech_h_int qpow st ∧
      0 < Bioreaktor.berech_h_int qpow st := by
  have h : Bioreaktor.berech_h_int qpow st =
      max (nusseltSpec qpow (st.drehz * st.ruehrer_d ^ 2 * st.dichte / st.mu)
        (Prandtl st.spez_c st.mu st.k) * st.k / st.ruehrer_d) 150 := rfl
  refine ⟨h, ?_, ?_⟩
  · rw [h]
    exact le_max_right _ _
  · rw [h]
    exact lt_of_lt_of_le (by norm_num) (le_max_right _ _)

/-- C10: the reference property refresh consults the live lookup only for
temperatures strictly between 0 and 100 degrees C; at 100 degrees C exactly
and at or below 0 degrees C it stores the fixed fallback constants
`cp = 4185.0`, `rho = 998.0`, `k = 0.599`, `mu = 0.001002` instead. -/
theorem update_stoffwerte_lookup_domain (props : ℚ → Option Stoffwerte)
    (st : Bioreaktor) :
    Bioreaktor.update_stoffwerte props st 100 = some (st.setStoffwerte Bioreaktor.fallback) ∧
      (∀ t, t ≤ 0 →
        Bioreaktor.update_stoffwerte props st t = some (st.setStoffwerte Bioreaktor.fallback)) ∧
      (∀ t w, 0 < t → t < 100 → props t = some w →
        Bioreaktor.update_stoffwerte props st t = some (st.setStoffwerte w)) ∧
      Bioreaktor.fallback.spez_c = 4185 ∧ Bioreaktor.fallback.dichte = 998 ∧
      Bioreaktor.fallback.k = 0.599 ∧ Bioreaktor.fallback.mu = 0.001002 := by
  refine ⟨?_, ?_, ?_, by norm_num [Bioreaktor.fallback], by norm_num [Bioreaktor.fallback],
    rfl, rfl⟩
  · unfold Bioreaktor.update_stoffwerte
    rw [if_neg (by norm_num : ¬((0:ℚ) < 100 ∧ (100:ℚ) < 100))]
  · intro t ht
    unfold Bioreaktor.update_stoffwerte
    rw [if_neg fun hc => absurd hc.1 (not_lt.mpr ht)]
  · intro t w h1 h2 hw
    unfold Bioreaktor.update_stoffwerte
    rw [if_pos ⟨h1, h2⟩, hw, Option.map_some']

/-- Witness for C10: the fallback is substituted at -5 degrees C, and the
live lookup value is stored at 50 degrees C. -/
theorem update_stoffwerte_lookup_domain_witness :
    Bioreaktor.update_stoffwerte propsW bioW (-5) = some (bioW.setStoffwerte Bioreaktor.fallback) ∧
      Bioreaktor.update_stoffwerte propsW bioW 50 = some (bioW.setStoffwerte wW) :=
  ⟨(update_stoffwerte_lookup_domain propsW bioW).2.1 (-5) (by norm_num),
    (update_stoffwerte_lookup_domain propsW bioW).2.2.1 50 wW (by norm_num) (by norm_num) rfl⟩

/-- C7: out-of-domain temperatures never reach the lookup and receive the
fallback constants; when the lookup succeeds on its documented valid domain
(0, 100), `update_temperatur` always returns normally; and the Testprojekt
variant recovers a failed lookup locally by storing its own fallback
constants. -/
theorem property_lookup_failures_recovered (props : ℚ → Option Stoffwerte)
    (qpow : ℚ → ℚ → ℚ) (st : Bioreaktor) :
    (∀ t, ¬(0 < t ∧ t < 100) →
      Bioreaktor.update_stoffwerte props st t = some (st.setStoffwerte Bioreaktor.fallback)) ∧
      ((∀ t, 0 < t → t < 100 → (props t).isSome = true) →
        ∀ leistung zeitintervall,
          (Bioreaktor.update_temperatur props qpow st leistung zeitintervall).isSome = true) ∧
      (∀ t, props t = none →
        Bioreaktor.update_fluid_properties_tp props st t =
          { st with spez_c := 4186, dichte := 1000 }) := by
  refine ⟨?_, ?_, ?_⟩
  · intro t ht
    unfold Bioreaktor.update_stoffwerte
    rw [if_neg ht]
  · intro hdom leistung zeitintervall
    have hsome : (Bioreaktor.update_stoffwerte props st st.t_ist).isSome = true := by
      unfold Bioreaktor.update_stoffwerte
      split_ifs with hc
      · rcases hps : props st.t_ist with _ | w
        · have := hdom st.t_ist hc.1 hc.2
          rw [hps] at this
          exact absurd this (by simp)
        · rfl
      · rfl
    unfold Bioreaktor.update_temperatur
    rcases hupd : Bioreaktor.update_stoffwerte props st st.t_ist with _ | st1
    · rw [hupd] at hsome
      exact absurd hsome (by simp)
    · rfl
  · intro t ht
    unfold Bioreaktor.update_fluid_properties_tp
    rw [ht]

/-- Witness for C7 with a lookup that succeeds exactly on (0, 100): the
fallback at 150 degrees C, a normal return of the temperature update, and
the Testprojekt recovery at 150 degrees C. -/
theorem property_lookup_failures_recovered_witness :
    Bioreaktor.update_stoffwerte propsRange bioW 150 = some (bioW.setStoffwerte Bioreaktor.fallback) ∧
      (Bioreaktor.update_temperatur propsRange qpowW bioW 0 1).isSome = true ∧
      Bioreaktor.update_fluid_properties_tp propsRange bioW 150 =
        { bioW with spez_c := 4186, dichte := 1000 } :=
  ⟨(property_lookup_failures_recovered propsRange qpowW bioW).1 150 (by norm_num),
    (property_lookup_failures_recovered propsRange qpowW bioW).2.1
      (fun t h1 h2 => by simp [propsRange, h1, h2]) 0 1,
    (property_lookup_failures_recovered propsRange qpowW bioW).2.2 150 (by norm_num [propsRange])⟩

/-- Helper: the internal coefficient is at least its documented minimum. -/
theorem berech_h_int_ge_min (qpow : ℚ → ℚ → ℚ) (st : Bioreaktor) :
    (150:ℚ) ≤ Bioreaktor.berech_h_int qpow st := le_max_right _ _

/-- Helper: below the epsilon guard the heat loss is exactly zero. -/
theorem t_verlust_zero_of_small (st : Bioreaktor)
    (h : |st.t_ist - st.t_umgebung| < 0.01) : Bioreaktor.t_verlust st = 0 := by
  unfold Bioreaktor.t_verlust
  dsimp only
  rw [if_pos h]

/-- Helper: with a temperature differential at or above the epsilon and
positive geometry and coefficients, the heat loss is strictly positive. -/
theorem t_verlust_pos (st : Bioreaktor) (hdelta : 0.01 ≤ st.t_ist - st.t_umgebung)
    (hfi : 0 < st.flaeche_i) (hfa : 0 < st.flaeche_a) (hwand : 0 < st.wand_stk)
    (hlam : 0 < st.lambda_wand) (hhe : 0 < st.h_ext) (hhi : 0 < st.h_int) :
    0 < Bioreaktor.t_verlust st := by
  unfold Bioreaktor.t_verlust
  dsimp only
  have habs : ¬(|st.t_ist - st.t_umgebung| < 0.01) := by
    rw [abs_of_nonneg (by linarith : (0:ℚ) ≤ st.t_ist - st.t_umgebung)]
    exact not_lt.mpr hdelta
  rw [if_neg habs]
  have h1 : 0 < 1 / (st.h_int * st.flaeche_i) := one_div_pos.mpr (mul_pos hhi hfi)
  have h2 : 0 < st.wand_stk / (st.lambda_wand * ((st.flaeche_i + st.flaeche_a) / 2)) :=
    div_pos hwand (mul_pos hlam (by linarith))
  have h3 : 0 < 1 / (st.h_ext * st.flaeche_a) := one_div_pos.mpr (mul_pos hhe hfa)
  exact div_pos (by linarith) (by linarith)

/-- Helper: a successful property refresh replaces exactly the four fluid
fields, either with the looked-up record or with the fallback record. -/
theorem update_stoffwerte_some_elim (props : ℚ → Option Stoffwerte)
    (st st1 : Bioreaktor) (t : ℚ)
    (h : Bioreaktor.update_stoffwerte props st t = some st1) :
    ∃ w : Stoffwerte, st1 = st.setStoffwerte w ∧
      (props t = some w ∨ w = Bioreaktor.fallback) := by
  unfold Bioreaktor.update_stoffwerte at h
  split_ifs at h with hc
  · cases hps : props t with
    | none =>
      rw [hps, Option.map_none'] at h
      exact absurd h (by simp)
    | some w =>
      rw [hps, Option.map_some'] at h
      injection h with h
      exact ⟨w, h.symm, Or.inl rfl⟩
  · injection h with h
    exact ⟨Bioreaktor.fallback, h.symm, Or.inr rfl⟩

/-- C9 as amended: with power 0, a positive time step, positive geometry
and coefficients, a lookup returning positive heat capacity and density,
and actuator bounds enclosing 0: while the internal temperature is at
least `ambient + 0.01` (and inside the clamp range) one update strictly
decreases it, but once the differential is below the epsilon 0.01 the
update leaves the temperature exactly unchanged, so the iterated sequence
approaches the ambient temperature only to within the epsilon, not
asymptotically. -/
theorem update_temperatur_cooling (props : ℚ → Option Stoffwerte)
    (qpow : ℚ → ℚ → ℚ) (st : Bioreaktor) (z : ℚ) (hz : 0 < z)
    (hprops : ∀ t w, props t = some w → 0 < w.spez_c ∧ 0 < w.dichte)
    (hvol : 0 < st.reaktor_vol) (hfi : 0 < st.flaeche_i) (hfa : 0 < st.flaeche_a)
    (hwand : 0 < st.wand_stk) (hlam : 0 < st.lambda_wand) (hhext : 0 < st.h_ext)
    (hminl : st.min_leistung ≤ 0) (hmaxl : 0 ≤ st.max_leistung) :
    (st.t_umgebung + 0.01 ≤ st.t_ist → 4 < st.t_ist → st.t_ist ≤ 100 →
      ∀ p, Bioreaktor.update_temperatur props qpow st 0 z = some p → p.2 < st.t_ist) ∧
      (|st.t_ist - st.t_umgebung| < 0.01 → 4 ≤ st.t_ist → st.t_ist ≤ 100 →
        ∀ p, Bioreaktor.update_temperatur props qpow st 0 z = some p → p.2 = st.t_ist) := by
  have hclip : npClip 0 st.min_leistung st.max_leistung = 0 := by
    unfold npClip
    rw [max_eq_left hminl, min_eq_left hmaxl]
  constructor
  · intro ht1 ht2 ht3 p hp
    unfold Bioreaktor.update_temperatur at hp
    dsimp only at hp
    rcases Option.map_eq_some'.mp hp with ⟨st1, hst1, hpeq⟩
    obtain ⟨w, hw, hcase⟩ := update_stoffwerte_some_elim props st st1 st.t_ist hst1
    have hcp : 0 < st1.spez_c := by
      rcases hcase with hps | hfb
      · rw [hw]
        exact (hprops _ _ hps).1
      · rw [hw, hfb]
        norm_num [Bioreaktor.setStoffwerte, Bioreaktor.fallback]
    have hrho : 0 < st1.dichte := by
      rcases hcase with hps | hfb
      · rw [hw]
        exact (hprops _ _ hps).2
      · rw [hw, hfb]
        norm_num [Bioreaktor.setStoffwerte, Bioreaktor.fallback]
    have e1 : st1.t_ist = st.t_ist := by rw [hw]; rfl
    have e2 : st1.t_umgebung = st.t_umgebung := by rw [hw]; rfl
    have e3 : st1.flaeche_i = st.flaeche_i := by rw [hw]; rfl
    have e4 : st1.flaeche_a = st.flaeche_a := by rw [hw]; rfl
    have e5 : st1.wand_stk = st.wand_stk := by rw [hw]; rfl
    have e6 : st1.lambda_wand = st.lambda_wand := by rw [hw]; rfl
    have e7 : st1.h_ext = st.h_ext := by rw [hw]; rfl
    have e8 : st1.reaktor_vol = st.reaktor_vol := by rw [hw]; rfl
    subst hpeq
    dsimp only
    rw [hclip]
    have hq : 0 < Bioreaktor.t_verlust { st1 with h_int := Bioreaktor.berech_h_int qpow st1 } := by
      apply t_verlust_pos
      · dsimp only
        rw [e1, e2]
        linarith
      · dsimp only
        rw [e3]
        exact hfi
      · dsimp only
        rw [e4]
        exact hfa
      · dsimp only
        rw [e5]
        exact hwand
      · dsimp only
        rw [e6]
        exact hlam
      · dsimp only
        rw [e7]
        exact hhext
      · dsimp only
        exact lt_of_lt_of_le (by norm_num) (berech_h_int_ge_min qpow st1)
    have hden : 0 < st1.dichte * st1.reaktor_vol * st1.spez_c :=
      mul_pos (mul_pos hrho (e8 ▸ hvol)) hcp
    have hD : (0 - Bioreaktor.t_verlust { st1 with h_int := Bioreaktor.berech_h_int qpow st1 }) * z /
        (st1.dichte * st1.reaktor_vol * st1.spez_c) < 0 :=
      div_neg_of_neg_of_pos (mul_neg_of_neg_of_pos (by linarith) hz) hden
    have h1 : st1.t_ist +
        (0 - Bioreaktor.t_verlust { st1 with h_int := Bioreaktor.berech_h_int qpow st1 }) * z /
          (st1.dichte * st1.reaktor_vol * st1.spez_c) < st.t_ist := by
      linarith [hD, e1]
    exact lt_of_le_of_lt (min_le_left _ _) (max_lt h1 ht2)
  · intro hsmall ht2 ht3 p hp
    unfold Bioreaktor.update_temperatur at hp
    dsimp only at hp
    rcases Option.map_eq_some'.mp hp with ⟨st1, hst1, hpeq⟩
    obtain ⟨w, hw, _⟩ := update_stoffwerte_some_elim props st st1 st.t_ist hst1
    have e1 : st1.t_ist = st.t_ist := by rw [hw]; rfl
    have e2 : st1.t_umgebung = st.t_umgebung := by rw [hw]; rfl
    subst hpeq
    dsimp only
    rw [hclip]
    have hq0 : Bioreaktor.t_verlust { st1 with h_int := Bioreaktor.berech_h_int qpow st1 } = 0 := by
      apply t_verlust_zero_of_small
      dsimp only
      rw [e1, e2]
      exact hsmall
    rw [hq0]
    rw [show (0 - (0:ℚ)) * z / (st1.dichte * st1.reaktor_vol * st1.spez_c) = 0 by norm_num]
    rw [add_zero, e1, max_eq_left ht2, min_eq_left ht3]

/-- Concrete reactor state 0.005 degrees above ambient, below the epsilon
guard of `t_verlust`, used to refute the strict-decrease claim. -/
def bioNearAmbient : Bioreaktor := { bioW with t_ist := 20.005 }

/-- Result of `update_temperatur propsW qpowW bioNearAmbient 0 1`: the
fluid properties are refreshed but the temperature does not move. -/
def bioNearAfter : Bioreaktor × ℚ :=
  ({ bioNearAmbient with spez_c := 4180, dichte := 1000, k := 6/10, mu := 1/1000 }, 20.005)

/-- Counterexample to C9: a state with power 0, positive time step and
internal temperature strictly above ambient on which `update_temperatur`
leaves the temperature exactly unchanged (the differential is below the
epsilon guard, so the heat loss is exactly zero), so repeated calls do not
strictly decrease the temperature and never approach ambient closer than
the epsilon. -/
theorem update_temperatur_cooling_counterexample :
    bioNearAmbient.t_umgebung < bioNearAmbient.t_ist ∧
      Bioreaktor.update_temperatur propsW qpowW bioNearAmbient 0 1 = some bioNearAfter ∧
      bioNearAfter.2 = bioNearAmbient.t_ist := by
  refine ⟨by norm_num [bioNearAmbient, bioW], ?_, by norm_num [bioNearAfter, bioNearAmbient, bioW]⟩
  norm_num [Bioreaktor.update_temperatur, Bioreaktor.update_stoffwerte, Bioreaktor.setStoffwerte,
    Bioreaktor.berech_h_int, Bioreaktor.t_verlust, Prandtl, npClip, propsW, qpowW, wW,
    bioNearAmbient, bioNearAfter, bioW, min_def, max_def, abs]

/-- Witness for C9 (amended), exercising the stall part: at the concrete
near-ambient state the update returns normally and reproduces the
temperature exactly. -/
theorem update_temperatur_cooling_witness :
    0 < (1:ℚ) ∧ |bioNearAmbient.t_ist - bioNearAmbient.t_umgebung| < 0.01 ∧
      4 ≤ bioNearAmbient.t_ist ∧ bioNearAmbient.t_ist ≤ 100 ∧
      Bioreaktor.update_temperatur propsW qpowW bioNearAmbient 0 1 = some bioNearAfter ∧
      bioNearAfter.2 = bioNearAmbient.t_ist := by
  have heval : Bioreaktor.update_temperatur propsW qpowW bioNearAmbient 0 1 = some bioNearAfter := by
    norm_num [Bioreaktor.update_temperatur, Bioreaktor.update_stoffwerte, Bioreaktor.setStoffwerte,
      Bioreaktor.berech_h_int, Bioreaktor.t_verlust, Prandtl, npClip, propsW, qpowW, wW,
      bioNearAmbient, bioNearAfter, bioW, min_def, max_def, abs]
  have hsmall : |bioNearAmbient.t_ist - bioNearAmbient.t_umgebung| < 0.01 := by
    norm_num [bioNearAmbient, bioW, abs]
  have h4 : (4:ℚ) ≤ bioNearAmbient.t_ist := by norm_num [bioNearAmbient, bioW]
  have h100 : bioNearAmbient.t_ist ≤ 100 := by norm_num [bioNearAmbient, bioW]
  refine ⟨by norm_num, hsmall, h4, h100, heval, ?_⟩
  exact (update_temperatur_cooling propsW qpowW bioNearAmbient 1 (by norm_num)
    (fun t w hw => by
      simp only [propsW, Option.some.injEq] at hw
      rw [← hw]
      exact ⟨by norm_num [wW], by norm_num [wW]⟩)
    (by norm_num [bioNearAmbient, bioW]) (by norm_num [bioNearAmbient, bioW])
    (by norm_num [bioNearAmbient, bioW]) (by norm_num [bioNearAmbient, bioW])
    (by norm_num [bioNearAmbient, bioW]) (by norm_num [bioNearAmbient, bioW])
    (by norm_num [bioNearAmbient, bioW]) (by norm_num [bioNearAmbient, bioW])).2
    hsmall h4 h100 bioNearAfter heval
